import Mathlib

/-!
Shallow embedding of `cmsg.py` (a CLI that edits the message of an arbitrary
git commit).  External subprocess calls (`git ...`) are modelled as oracle
functions mapping the invoked reference/argument to a captured process result;
`sys.exit(1)` and uncaught exceptions are modelled as dedicated outcome
constructors.  All Python string operations used by the source
(`str.strip`, `str.split`, `str.replace(old, new, 1)`) are embedded as
structurally recursive Lean functions over `List Char`.
-/

namespace Cmsg

/-- Python `s.strip()`: drop whitespace from both ends. -/
def pyStrip (s : String) : String :=
  ⟨((s.data.dropWhile Char.isWhitespace).reverse.dropWhile Char.isWhitespace).reverse⟩

/-- Helper for `pySplit`: accumulates the current token (reversed) while
scanning the character list, splitting on whitespace runs. -/
def pySplitAux (cur : List Char) : List Char → List (List Char)
  | [] => if cur.isEmpty then [] else [cur.reverse]
  | c :: cs =>
    if c.isWhitespace then
      if cur.isEmpty then pySplitAux [] cs
      else cur.reverse :: pySplitAux [] cs
    else pySplitAux (c :: cur) cs

/-- Python `s.strip().split()` (as in `line.strip().split()` of the sequence
editor): split on runs of whitespace, discarding empty tokens. -/
def pySplit (s : String) : List String :=
  (pySplitAux [] s.data).map (fun l => ⟨l⟩)

/-- Helper for `pyReplaceFirst`: replace the leftmost occurrence of `pat`. -/
def replaceFirstAux (pat repl : List Char) : List Char → List Char
  | [] => []
  | c :: cs =>
    if pat.isPrefixOf (c :: cs) then repl ++ (c :: cs).drop pat.length
    else c :: replaceFirstAux pat repl cs

/-- Python `s.replace(pat, repl, 1)` for nonempty `pat`: replace only the
leftmost occurrence of `pat` (the string is returned unchanged when `pat`
does not occur). -/
def pyReplaceFirst (s pat repl : String) : String :=
  ⟨replaceFirstAux pat.data repl.data s.data⟩

/-- The captured result of one external subprocess: `returncode`, `stdout`,
`stderr` (from `subprocess.run(..., capture_output=True, text=True)`). -/
structure ProcResult where
  returncode : Int
  stdout : String
  stderr : String
deriving DecidableEq, Repr

/-- Outcome of `run_command`: either the result is returned to the caller
(`ok`), or — `check=True` and a non-zero exit — the runner prints the failing
command, its captured stdout and stderr, and calls `sys.exit(1)` (`fatal`). -/
inductive RunOutcome where
  | ok (r : ProcResult)
  | fatal (cmd : List String) (out err : String)
deriving DecidableEq, Repr

/-- `run_command(command, check)` from `cmsg.py` lines 8–29, applied to the
result `r` that the subprocess produced for `cmd`.  With `check=True`,
`subprocess.run` raises `CalledProcessError` exactly on a non-zero exit; the
runner catches it, reports command/stdout/stderr and exits 1.  With
`check=False` no exception is raised and the result is returned as-is. -/
def run_command (check : Bool) (cmd : List String) (r : ProcResult) : RunOutcome :=
  if check ∧ r.returncode ≠ 0 then .fatal cmd r.stdout r.stderr
  else .ok r

/-- The argv of a `git rev-parse <ref>` invocation. -/
def git_rev_parse_cmd (ref : String) : List String := ["git", "rev-parse", ref]

/-- `is_working_directory_clean` (lines 31–39), given the stdout of
`git status --porcelain`: clean iff `not result.stdout.strip()`. -/
def is_working_directory_clean (statusStdout : String) : Bool :=
  pyStrip statusStdout == ""

/-- Outcome of `get_full_hash`: either a resolved full hash is returned, or
the program terminated inside `run_command` (`sys.exit(1)` after reporting). -/
inductive ResolveOutcome where
  | resolved (hash : String)
  | fatalExit (cmd : List String) (out err : String)
deriving DecidableEq, Repr

/-- `get_full_hash(commit_id)` (lines 41–50): runs
`git rev-parse commit_id` through `run_command` with `check=True` and returns
`result.stdout.strip()`.  On a non-zero exit, `run_command` itself reports and
exits 1, so the function never returns a value for an unresolvable reference
(its own `except` clause is unreachable).  `rp` is the rev-parse oracle. -/
def get_full_hash (rp : String → ProcResult) (commit_id : String) : ResolveOutcome :=
  match run_command true (git_rev_parse_cmd commit_id) (rp commit_id) with
  | .ok r => .resolved (pyStrip r.stdout)
  | .fatal c o e => .fatalExit c o e

/-- `get_parent_hash(commit_hash)` (lines 62–74): probes
`git rev-parse <hash>^` through `run_command` with `check=False`; a non-zero
`returncode` yields `None` (root commit), otherwise `result.stdout.strip()`. -/
def get_parent_hash (rp : String → ProcResult) (commit_hash : String) : Option String :=
  match run_command false (git_rev_parse_cmd (commit_hash ++ "^")) (rp (commit_hash ++ "^")) with
  | .fatal _ _ _ => none
  | .ok r => if r.returncode ≠ 0 then none else some (pyStrip r.stdout)

/-- Outcome of `internal_sequence_editor`:
`envError` = `CMSG_TARGET_HASH` missing or empty (falsy), reported, `sys.exit(1)`;
`crashed` = an uncaught exception escaped the line loop (Python then exits
non-zero without writing the todo file);
`wrote` = the loop finished, the new lines were written over the todo file and
the driver returned normally (process exit status 0), `found` recording
whether any line was marked for reword. -/
inductive SeqOutcome where
  | envError
  | crashed
  | wrote (newLines : List String) (found : Bool)
deriving DecidableEq, Repr

/-- One iteration of the `for line in lines` loop of
`internal_sequence_editor` (lines 88–117).  `resolve` is the per-line
`subprocess.check_output(["git", "rev-parse", short]).strip()` oracle, with a
resolution failure (`CalledProcessError`) already collapsed to `""` as the
source does.  Result `none` models the uncaught `IndexError` raised by
`parts[1]` when a non-blank, non-comment line has a single token. -/
def processLine (resolve : String → String) (target line : String) :
    Option (String × Bool) :=
  match pySplit line with
  | [] => some (line, false)
  | p0 :: rest =>
    if p0 == "#" then some (line, false)
    else
      match rest with
      | [] => none
      | p1 :: _ =>
        if resolve p1 == target then
          if p0 == "pick" then some (pyReplaceFirst line "pick" "reword", true)
          else some (line, false)
        else some (line, false)

/-- The whole line loop: accumulates `new_lines` and the `found` flag; an
exception on any line aborts the loop (and the file is never written). -/
def processLines (resolve : String → String) (target : String) :
    List String → Option (List String × Bool)
  | [] => some ([], false)
  | l :: ls =>
    match processLine resolve target l with
    | none => none
    | some (l', f) =>
      match processLines resolve target ls with
      | none => none
      | some (ls', f') => some (l' :: ls', f || f')

/-- `internal_sequence_editor` (lines 76–120): check the `CMSG_TARGET_HASH`
side channel (`if not target_hash` — absent or empty string is fatal), run
the line loop, write the accumulated lines back over the todo file, and log
informationally when nothing was found. -/
def internal_sequence_editor (envTarget : Option String)
    (resolve : String → String) (contents : List String) : SeqOutcome :=
  match envTarget with
  | none => .envError
  | some t =>
    if t == "" then .envError
    else
      match processLines resolve t contents with
      | none => .crashed
      | some (ls, found) => .wrote ls found

/-- Outcome of `internal_message_editor`:
`envError` = `CMSG_NEW_MESSAGE` is `None` (absent), reported, `sys.exit(1)`;
`wrote m` = the message-buffer file named by `sys.argv[1]` was opened in mode
`"w"` (truncating it) and exactly `m` was written, after which the driver
returns normally (process exit status 0). -/
inductive MsgOutcome where
  | envError
  | wrote (bufferContents : String)
deriving DecidableEq, Repr

/-- `internal_message_editor` (lines 122–132): `os.environ.get` yields `None`
only when the variable is absent (an empty string is accepted), and
`f.write(new_message)` replaces the whole buffer with the literal message. -/
def internal_message_editor (envMessage : Option String) : MsgOutcome :=
  match envMessage with
  | none => .envError
  | some m => .wrote m

/-- The rebase range boundary appended to `["git", "rebase", "-i"]`:
either the target's parent hash or `--root`. -/
inductive RebaseBoundary where
  | onto (parent : String)
  | root
deriving DecidableEq, Repr

/-- Outcome of `main` (lines 134–221), tracked up to the point where the one
mutating git command of the invocation is issued:
`fatalCmd` = `run_command` reported a failing checked command and exited 1;
`dirtyAbort` = the clean-tree precondition failed, reported, `sys.exit(1)`;
`amend` = the direct `git commit --amend` path was taken;
`rebase` = `git rebase -i <boundary>` was invoked with `CMSG_TARGET_HASH`
set to the target hash and, when a message was supplied, `CMSG_NEW_MESSAGE`
set to it. -/
inductive MainOutcome where
  | fatalCmd (cmd : List String) (out err : String)
  | dirtyAbort
  | amend (msg : Option String)
  | rebase (boundary : RebaseBoundary) (targetHash : String) (msg : Option String)
deriving DecidableEq, Repr

/-- `target_commit = args.commit if args.commit else "HEAD"` (line 158):
Python truthiness makes both an omitted option and an empty string fall back
to `"HEAD"`. -/
def targetRef (commitOpt : Option String) : String :=
  match commitOpt with
  | some c => if c == "" then "HEAD" else c
  | none => "HEAD"

/-- The external git processes observed by one `main` invocation: the result
of `git status --porcelain` and, for each argument string ever passed to
`git rev-parse` (a ref, or `<hash>^` for the parent probe), its result. -/
structure GitOracle where
  status : ProcResult
  revParse : String → ProcResult

/-- The argv of the working-tree status query. -/
def git_status_cmd : List String := ["git", "status", "--porcelain"]

/-- The direct-amend argv (lines 166–168): `git commit --amend`, extended
with `-m <message>` when a literal message was supplied. -/
def git_amend_cmd (msg : Option String) : List String :=
  ["git", "commit", "--amend"] ++ (match msg with | some m => ["-m", m] | none => [])

/-- The rebase argv (lines 177–183): `git rebase -i` plus the boundary. -/
def git_rebase_cmd : RebaseBoundary → List String
  | .onto p => ["git", "rebase", "-i", p]
  | .root => ["git", "rebase", "-i", "--root"]

/-- `main` (lines 134–221), orchestration up to the mutating command.  The
`run_command` call inside `is_working_directory_clean` is lifted here so its
fatal path is visible; the pure cleanliness test then takes the captured
stdout.  `if parent_hash:` is Python truthiness: both `None` and an empty
string select the `--root` boundary. -/
def mainRun (g : GitOracle) (message commitOpt : Option String) : MainOutcome :=
  match run_command true git_status_cmd g.status with
  | .fatal c o e => .fatalCmd c o e
  | .ok r =>
    if is_working_directory_clean r.stdout then
      match get_full_hash g.revParse (targetRef commitOpt) with
      | .fatalExit c o e => .fatalCmd c o e
      | .resolved target_full_hash =>
        match get_full_hash g.revParse "HEAD" with
        | .fatalExit c o e => .fatalCmd c o e
        | .resolved head_hash =>
          if target_full_hash == head_hash then .amend message
          else
            match get_parent_hash g.revParse target_full_hash with
            | some p =>
              if p == "" then .rebase .root target_full_hash message
              else .rebase (.onto p) target_full_hash message
            | none => .rebase .root target_full_hash message
    else .dirtyAbort

/-- The mutating git commands an outcome stands for: the two abort outcomes
issue none (only the read-only status/rev-parse queries ran). -/
def mutatingCommands : MainOutcome → List (List String)
  | .amend msg => [git_amend_cmd msg]
  | .rebase b _ _ => [git_rebase_cmd b]
  | .fatalCmd _ _ _ => []
  | .dirtyAbort => []

/-- The canonical hash `get_full_hash` returns for the target reference when
its rev-parse exits zero. -/
def resolvedTarget (g : GitOracle) (commitOpt : Option String) : String :=
  pyStrip (g.revParse (targetRef commitOpt)).stdout

/-- The canonical hash `get_full_hash` returns for `HEAD` when its rev-parse
exits zero. -/
def resolvedHead (g : GitOracle) : String :=
  pyStrip (g.revParse "HEAD").stdout

/-- A line the loop body survives: blank (no tokens), a comment whose first
token is exactly `#`, or an action line with at least two tokens (so that
`parts[1]` exists). -/
def lineSafe (line : String) : Bool :=
  match pySplit line with
  | [] => true
  | [p] => p == "#"
  | _ :: _ :: _ => true

/-- The line is a match the driver rewrites: first token exactly `pick` and
the fresh resolution of the second token equals the target hash. -/
def isPickMatch (resolve : String → String) (target line : String) : Bool :=
  match pySplit line with
  | p0 :: p1 :: _ => p0 == "pick" && resolve p1 == target
  | _ => false

end Cmsg

namespace Cmsg

/-- Claim C7: for every command run with `check=True` (mustSucceed), a
non-zero subprocess exit makes the runner report the failing command with its
captured stdout and stderr and terminate the program with a non-zero status;
in that mode it never returns a result carrying a non-zero exit code. -/
theorem claim_C7_runner_fatal_on_failure (cmd : List String) (r : ProcResult) :
    (r.returncode ≠ 0 → run_command true cmd r = .fatal cmd r.stdout r.stderr) ∧
    (∀ r' : ProcResult, run_command true cmd r = .ok r' → r'.returncode = 0) := by
  constructor
  · intro h
    simp [run_command, h]
  · intro r' h
    by_cases hz : r.returncode = 0
    · simp [run_command, hz] at h
      simpa [← h] using hz
    · simp [run_command, hz] at h

/-- Witness for C7 at a concrete failing result. -/
theorem claim_C7_witness :
    run_command true ["git", "status", "--porcelain"]
      ⟨128, "", "fatal: not a git repository"⟩ =
      .fatal ["git", "status", "--porcelain"] "" "fatal: not a git repository" :=
  (claim_C7_runner_fatal_on_failure ["git", "status", "--porcelain"]
    ⟨128, "", "fatal: not a git repository"⟩).1 (by decide)

/-- Claim C8: the parent query returns the stripped probe stdout (the parent
canonical hash) exactly when the probe for `<hash>^` exits zero and the
"no parent" sentinel `none` exactly when it exits non-zero; the non-zero probe
exit does not terminate the program because `run_command` with
mustSucceed=false returns the result (non-zero code included) to the caller. -/
theorem claim_C8_parent_probe (rp : String → ProcResult) (h : String) :
    (run_command false (git_rev_parse_cmd (h ++ "^")) (rp (h ++ "^")) =
      .ok (rp (h ++ "^"))) ∧
    ((rp (h ++ "^")).returncode = 0 →
      get_parent_hash rp h = some (pyStrip (rp (h ++ "^")).stdout)) ∧
    ((rp (h ++ "^")).returncode ≠ 0 → get_parent_hash rp h = none) := by
  refine ⟨by simp [run_command], ?_, ?_⟩
  · intro hz
    simp [get_parent_hash, run_command, hz]
  · intro hz
    simp [get_parent_hash, run_command, hz]

/-- Witness for C8: a concrete probe oracle where `abc^` resolves and
`root^` does not. -/
theorem claim_C8_witness :
    get_parent_hash (fun s => if s = "abc^" then ⟨0, "p4rent99\n", ""⟩
      else ⟨128, "", "fatal"⟩) "abc" = some "p4rent99" ∧
    get_parent_hash (fun s => if s = "abc^" then ⟨0, "p4rent99\n", ""⟩
      else ⟨128, "", "fatal"⟩) "root" = none := by
  constructor
  · have h := (claim_C8_parent_probe
      (fun s => if s = "abc^" then ⟨0, "p4rent99\n", ""⟩ else ⟨128, "", "fatal"⟩)
      "abc").2.1 (by decide)
    simpa using h
  · have h := (claim_C8_parent_probe
      (fun s => if s = "abc^" then ⟨0, "p4rent99\n", ""⟩ else ⟨128, "", "fatal"⟩)
      "root").2.2 (by decide)
    simpa using h

/-- Claim C9: when the VCS cannot resolve the given reference (the rev-parse
subprocess exits non-zero), `get_full_hash` ends in the fatal reporting exit
of `run_command` — non-zero process exit — and never returns a resolved hash
to its caller. -/
theorem claim_C9_resolution_fatal (rp : String → ProcResult) (commit_id : String)
    (hfail : (rp commit_id).returncode ≠ 0) :
    get_full_hash rp commit_id =
      .fatalExit (git_rev_parse_cmd commit_id) (rp commit_id).stdout (rp commit_id).stderr ∧
    ∀ hsh : String, get_full_hash rp commit_id ≠ .resolved hsh := by
  have hrun : run_command true (git_rev_parse_cmd commit_id) (rp commit_id) =
      .fatal (git_rev_parse_cmd commit_id) (rp commit_id).stdout (rp commit_id).stderr := by
    simp [run_command, hfail]
  constructor
  · simp [get_full_hash, hrun]
  · intro hsh
    simp [get_full_hash, hrun]

/-- Witness for C9 at a concrete unresolvable reference. -/
theorem claim_C9_witness :
    get_full_hash (fun _ => ⟨128, "", "fatal: bad revision"⟩) "nonsense" =
      .fatalExit ["git", "rev-parse", "nonsense"] "" "fatal: bad revision" :=
  (claim_C9_resolution_fatal (fun _ => ⟨128, "", "fatal: bad revision"⟩)
    "nonsense" (by decide)).1

theorem processLine_pickMatch (resolve : String → String) (target line : String)
    (h : isPickMatch resolve target line = true) :
    processLine resolve target line =
      some (pyReplaceFirst line "pick" "reword", true) := by
  unfold isPickMatch at h
  cases hps : pySplit line with
  | nil => rw [hps] at h; simp at h
  | cons p0 rest =>
    cases rest with
    | nil => rw [hps] at h; simp at h
    | cons p1 tl =>
      rw [hps] at h
      simp only [Bool.and_eq_true, beq_iff_eq] at h
      obtain ⟨h0, h1⟩ := h
      subst h0
      simp [processLine, hps, h1]

theorem processLine_safe_noMatch (resolve : String → String) (target line : String)
    (hs : lineSafe line = true) (h : isPickMatch resolve target line = false) :
    processLine resolve target line = some (line, false) := by
  unfold lineSafe at hs
  unfold isPickMatch at h
  cases hps : pySplit line with
  | nil => simp [processLine, hps]
  | cons p0 rest =>
    cases rest with
    | nil =>
      rw [hps] at hs
      simp only [beq_iff_eq] at hs
      simp [processLine, hps, hs]
    | cons p1 tl =>
      rw [hps] at h
      have h' : (p0 == "pick" && resolve p1 == target) = false := h
      by_cases hc : p0 = "#"
      · simp [processLine, hps, hc]
      · by_cases hm : resolve p1 = target
        · have hp : p0 ≠ "pick" := by
            intro he
            rw [he, hm] at h'
            simp at h'
          simp [processLine, hps, hc, hm, hp]
        · simp [processLine, hps, hc, hm]

theorem processLines_noMatch (resolve : String → String) (target : String)
    (ls : List String)
    (h : ∀ l ∈ ls, lineSafe l = true ∧ isPickMatch resolve target l = false) :
    processLines resolve target ls = some (ls, false) := by
  induction ls with
  | nil => rfl
  | cons l ls ih =>
    have hl := h l (List.mem_cons_self l ls)
    have hrest := ih (fun x hx => h x (List.mem_cons_of_mem l hx))
    simp [processLines, processLine_safe_noMatch resolve target l hl.1 hl.2, hrest]

theorem processLines_uniqueMatch (resolve : String → String) (target : String)
    (pre : List String) (l : String) (post : List String)
    (hpre : ∀ x ∈ pre, lineSafe x = true ∧ isPickMatch resolve target x = false)
    (hl : isPickMatch resolve target l = true)
    (hpost : ∀ x ∈ post, lineSafe x = true ∧ isPickMatch resolve target x = false) :
    processLines resolve target (pre ++ l :: post) =
      some (pre ++ pyReplaceFirst l "pick" "reword" :: post, true) := by
  induction pre with
  | nil =>
    simp [processLines, processLine_pickMatch resolve target l hl,
      processLines_noMatch resolve target post hpost]
  | cons x pre ih =>
    have hx := hpre x (List.mem_cons_self x pre)
    have hrest := ih (fun y hy => hpre y (List.mem_cons_of_mem x hy))
    simp only [List.cons_append]
    simp [processLines, processLine_safe_noMatch resolve target x hx.1 hx.2, hrest]

theorem processLine_safe_isSome (resolve : String → String) (target line : String)
    (hs : lineSafe line = true) : ∃ p, processLine resolve target line = some p := by
  by_cases hm : isPickMatch resolve target line = true
  · exact ⟨_, processLine_pickMatch resolve target line hm⟩
  · exact ⟨_, processLine_safe_noMatch resolve target line hs (by simpa using hm)⟩

theorem processLines_safe_isSome (resolve : String → String) (target : String)
    (ls : List String) (hs : ∀ l ∈ ls, lineSafe l = true) :
    ∃ p, processLines resolve target ls = some p := by
  induction ls with
  | nil => exact ⟨([], false), rfl⟩
  | cons l ls ih =>
    obtain ⟨⟨l', f⟩, hl⟩ :=
      processLine_safe_isSome resolve target l (hs l (List.mem_cons_self l ls))
    obtain ⟨⟨ls', f'⟩, hls⟩ := ih (fun x hx => hs x (List.mem_cons_of_mem l hx))
    exact ⟨(l' :: ls', f || f'), by simp [processLines, hl, hls]⟩

/-- Claim C1: when the step list holds exactly one line whose short hash
resolves to the target and whose verb is `pick` (the invariant-guaranteed
unique match), the driver rewrites that line's first `pick` occurrence (its
verb) to `reword` and every other line — comments, blanks, non-matching or
non-pick action lines — is reproduced byte-for-byte in its original order. -/
theorem claim_C1_exactly_one_reword (resolve : String → String) (target : String)
    (pre : List String) (l : String) (post : List String)
    (htarget : target ≠ "")
    (hpre : ∀ x ∈ pre, lineSafe x = true ∧ isPickMatch resolve target x = false)
    (hl : isPickMatch resolve target l = true)
    (hpost : ∀ x ∈ post, lineSafe x = true ∧ isPickMatch resolve target x = false) :
    internal_sequence_editor (some target) resolve (pre ++ l :: post) =
      .wrote (pre ++ pyReplaceFirst l "pick" "reword" :: post) true := by
  have ht : (target == "") = false := by simp [htarget]
  simp [internal_sequence_editor, ht,
    processLines_uniqueMatch resolve target pre l post hpre hl hpost]

/-- Witness for C1: a concrete four-line todo file where only the third line
matches; exactly it is reworded, everything else byte-identical. -/
theorem claim_C1_witness :
    internal_sequence_editor (some "B")
      (fun s => if s = "aaa111" then "A" else if s = "bbb222" then "B" else "")
      ["# comment\n", "pick aaa111 first\n", "pick bbb222 second\n", "\n"] =
      .wrote ["# comment\n", "pick aaa111 first\n", "reword bbb222 second\n", "\n"]
        true := by
  have h := claim_C1_exactly_one_reword
    (fun s => if s = "aaa111" then "A" else if s = "bbb222" then "B" else "")
    "B" ["# comment\n", "pick aaa111 first\n"] "pick bbb222 second\n" ["\n"]
    (by decide) (by decide) (by decide) (by decide)
  exact h.trans (by decide)

/-- Claim C3: with the side channel present, the message editor overwrites
the whole message buffer with exactly the supplied literal message — any
string, multi-line and blank-line content included, with no transformation. -/
theorem claim_C3_message_written_verbatim (M : String) :
    internal_message_editor (some M) = .wrote M := rfl

/-- Counterexample to C5 as stated: the file content `["noop\n"]` is a
possible step-list content (a single-token action line), and on it the driver
raises an uncaught `IndexError` at `parts[1]` instead of terminating
normally. -/
theorem claim_C5_counterexample :
    internal_sequence_editor (some "abc") (fun _ => "") ["noop\n"] = .crashed := by
  decide

/-- Claim C5 (amended): for every step-list content whose lines are each
blank, a `#`-first-token comment, or an action line with at least two tokens,
the driver with its side-channel target set terminates without an uncaught
exception (it writes an output and returns); single-token action lines such
as `noop` are excluded because `parts[1]` raises an uncaught `IndexError`. -/
theorem claim_C5_amended_no_crash_on_safe_lines (resolve : String → String)
    (target : String) (contents : List String) (htarget : target ≠ "")
    (hsafe : ∀ l ∈ contents, lineSafe l = true) :
    ∃ out found,
      internal_sequence_editor (some target) resolve contents = .wrote out found := by
  obtain ⟨⟨out, found⟩, hp⟩ := processLines_safe_isSome resolve target contents hsafe
  refine ⟨out, found, ?_⟩
  have ht : (target == "") = false := by simp [htarget]
  simp [internal_sequence_editor, ht, hp]

/-- Witness for the amended C5: a concrete no-match file with comment, action
and blank lines terminates normally. -/
theorem claim_C5_witness :
    ∃ out found,
      internal_sequence_editor (some "t") (fun _ => "")
        ["# c\n", "pick abc x\n", "\n"] = .wrote out found :=
  claim_C5_amended_no_crash_on_safe_lines (fun _ => "") "t"
    ["# c\n", "pick abc x\n", "\n"] (by decide) (by decide)

/-- Claim C6: each driver exits non-zero exactly when its side-channel value
is absent (`envError`), while a target hash matching no line of the step list
is non-fatal: the driver writes the file back with unchanged content, makes
no substitution, and returns normally (exit status 0) so git's default
handling proceeds. -/
theorem claim_C6_driver_error_conventions :
    (∀ (resolve : String → String) (contents : List String),
      internal_sequence_editor none resolve contents = .envError) ∧
    internal_message_editor none = .envError ∧
    (∀ (resolve : String → String) (target : String) (contents : List String),
      target ≠ "" →
      (∀ l ∈ contents, lineSafe l = true ∧ isPickMatch resolve target l = false) →
      internal_sequence_editor (some target) resolve contents =
        .wrote contents false) := by
  refine ⟨fun _ _ => rfl, rfl, ?_⟩
  intro resolve target contents htarget hnone
  have ht : (target == "") = false := by simp [htarget]
  simp [internal_sequence_editor, ht,
    processLines_noMatch resolve target contents hnone]

/-- Witness for C6: concrete missing-side-channel invocations and a concrete
no-match step list handed back unchanged. -/
theorem claim_C6_witness :
    internal_sequence_editor none (fun _ => "") ["pick a b\n"] = .envError ∧
    internal_message_editor none = .envError ∧
    internal_sequence_editor (some "t") (fun _ => "x")
      ["# c\n", "pick abc subj\n"] = .wrote ["# c\n", "pick abc subj\n"] false := by
  refine ⟨claim_C6_driver_error_conventions.1 _ _,
    claim_C6_driver_error_conventions.2.1, ?_⟩
  exact claim_C6_driver_error_conventions.2.2 (fun _ => "x") "t"
    ["# c\n", "pick abc subj\n"] (by decide) (by decide)

/-- Claim C4: a dirty working tree (status query exits 0 with non-blank
porcelain output) makes the orchestrator report and exit non-zero before any
mutating VCS command is issued. -/
theorem claim_C4_dirty_tree_aborts_before_mutation (g : GitOracle)
    (message commitOpt : Option String)
    (hstatus : g.status.returncode = 0)
    (hdirty : pyStrip g.status.stdout ≠ "") :
    mainRun g message commitOpt = .dirtyAbort ∧
    mutatingCommands (mainRun g message commitOpt) = [] := by
  have hrun : run_command true git_status_cmd g.status = .ok g.status := by
    simp [run_command, hstatus]
  have hclean : is_working_directory_clean g.status.stdout = false := by
    simp [is_working_directory_clean, hdirty]
  have hmain : mainRun g message commitOpt = .dirtyAbort := by
    simp [mainRun, hrun, hclean]
  exact ⟨hmain, by simp [hmain, mutatingCommands]⟩

/-- Witness for C4 at a concrete dirty-tree oracle. -/
theorem claim_C4_witness :
    mainRun ⟨⟨0, " M file.txt\n", ""⟩, fun _ => ⟨0, "h", ""⟩⟩ (some "msg") none =
      .dirtyAbort ∧
    mutatingCommands
      (mainRun ⟨⟨0, " M file.txt\n", ""⟩, fun _ => ⟨0, "h", ""⟩⟩ (some "msg") none) =
      [] :=
  claim_C4_dirty_tree_aborts_before_mutation
    ⟨⟨0, " M file.txt\n", ""⟩, fun _ => ⟨0, "h", ""⟩⟩ (some "msg") none
    (by decide) (by decide)

/-- Claim C2: with a clean tree and both resolutions succeeding, the
orchestrator direct-amends iff the target hash equals HEAD's hash; otherwise
it runs an interactive rebase whose boundary is the parent hash when the
parent probe exits zero (yielding a hash) and `--root` when the probe exits
non-zero. -/
theorem claim_C2_plan_selection (g : GitOracle) (message commitOpt : Option String)
    (hstatus : g.status.returncode = 0)
    (hclean : pyStrip g.status.stdout = "")
    (hres : (g.revParse (targetRef commitOpt)).returncode = 0)
    (hhead : (g.revParse "HEAD").returncode = 0) :
    (mainRun g message commitOpt = .amend message ↔
      resolvedTarget g commitOpt = resolvedHead g) ∧
    (resolvedTarget g commitOpt ≠ resolvedHead g →
      ((g.revParse (resolvedTarget g commitOpt ++ "^")).returncode = 0 →
        pyStrip (g.revParse (resolvedTarget g commitOpt ++ "^")).stdout ≠ "" →
        mainRun g message commitOpt =
          .rebase (.onto (pyStrip (g.revParse (resolvedTarget g commitOpt ++ "^")).stdout))
            (resolvedTarget g commitOpt) message) ∧
      ((g.revParse (resolvedTarget g commitOpt ++ "^")).returncode ≠ 0 →
        mainRun g message commitOpt =
          .rebase .root (resolvedTarget g commitOpt) message)) := by
  have hrun : run_command true git_status_cmd g.status = .ok g.status := by
    simp [run_command, hstatus]
  have hcl : is_working_directory_clean g.status.stdout = true := by
    simp [is_working_directory_clean, hclean]
  have hT : get_full_hash g.revParse (targetRef commitOpt) =
      .resolved (resolvedTarget g commitOpt) := by
    simp [get_full_hash, run_command, hres, resolvedTarget]
  have hH : get_full_hash g.revParse "HEAD" = .resolved (resolvedHead g) := by
    simp [get_full_hash, run_command, hhead, resolvedHead]
  constructor
  · constructor
    · intro h
      by_contra hne
      cases hp : get_parent_hash g.revParse (resolvedTarget g commitOpt) with
      | none =>
        have hm : mainRun g message commitOpt =
            .rebase .root (resolvedTarget g commitOpt) message := by
          simp [mainRun, hrun, hcl, hT, hH, hne, hp]
        rw [hm] at h
        simp at h
      | some p =>
        by_cases hpe : p = ""
        · have hm : mainRun g message commitOpt =
              .rebase .root (resolvedTarget g commitOpt) message := by
            simp [mainRun, hrun, hcl, hT, hH, hne, hp, hpe]
          rw [hm] at h
          simp at h
        · have hm : mainRun g message commitOpt =
              .rebase (.onto p) (resolvedTarget g commitOpt) message := by
            simp [mainRun, hrun, hcl, hT, hH, hne, hp, hpe]
          rw [hm] at h
          simp at h
    · intro heq
      simp [mainRun, hrun, hcl, hT, hH, heq]
  · intro hne
    constructor
    · intro hprc hpne
      have hp : get_parent_hash g.revParse (resolvedTarget g commitOpt) =
          some (pyStrip (g.revParse (resolvedTarget g commitOpt ++ "^")).stdout) := by
        simp [get_parent_hash, run_command, hprc]
      simp [mainRun, hrun, hcl, hT, hH, hne, hp, hpne]
    · intro hprc
      have hp : get_parent_hash g.revParse (resolvedTarget g commitOpt) = none := by
        simp [get_parent_hash, run_command, hprc]
      simp [mainRun, hrun, hcl, hT, hH, hne, hp]

/-- Witness for C2: a three-query oracle where the target is not HEAD and the
parent probe succeeds, yielding a rebase onto the parent hash. -/
theorem claim_C2_witness :
    mainRun
      ⟨⟨0, "", ""⟩, fun s =>
        if s = "HEAD" then ⟨0, "headhash\n", ""⟩
        else if s = "c2" then ⟨0, "c2hash\n", ""⟩
        else if s = "c2hash^" then ⟨0, "c1hash\n", ""⟩
        else ⟨128, "", ""⟩⟩ (some "m") (some "c2") =
      .rebase (.onto "c1hash") "c2hash" (some "m") := by
  have h := (claim_C2_plan_selection
    ⟨⟨0, "", ""⟩, fun s =>
      if s = "HEAD" then ⟨0, "headhash\n", ""⟩
      else if s = "c2" then ⟨0, "c2hash\n", ""⟩
      else if s = "c2hash^" then ⟨0, "c1hash\n", ""⟩
      else ⟨128, "", ""⟩⟩ (some "m") (some "c2")
    (by decide) (by decide) (by decide) (by decide)).2 (by decide)
  exact (h.1 (by decide) (by decide)).trans (by decide)

/-- Claim C10: supplying the commit option as the empty string behaves
exactly like omitting it — the target reference falls back to `HEAD` and the
whole orchestration is identical. -/
theorem claim_C10_empty_commit_defaults_to_head :
    targetRef (some "") = "HEAD" ∧
    ∀ (g : GitOracle) (message : Option String),
      mainRun g message (some "") = mainRun g message none := by
  exact ⟨rfl, fun g message => rfl⟩

end Cmsg
